import Mathlib

/-!
A shallow embedding of a fluent HTTP request builder (`param.go`,
`response.go`).  The builder accumulates a method, a URL, headers, query
parameters and a body stream, materializes itself into a platform-native
request (`make`) and executes it (`Send`).  Platform capabilities that the
repository merely consumes (the standard library's request constructor,
query-string codec, HTTP client, JSON/XML marshalling, the filesystem) are
modelled as explicit parameters; everything written by the repository itself
is translated directly from the source.
-/

set_option linter.unusedVariables false

namespace HttpBuilder

/-- A key-value pair, used for both headers and query parameters. -/
structure Param where
  Key : String
  Value : String
deriving DecidableEq

/-- Constructs a new parameter (Go `newParam`). -/
def newParam (key value : String) : Param :=
  { Key := key, Value := value }

/-- A file part written into a multipart buffer: its form key, its file name
and the bytes that were copied into it. -/
structure FilePart where
  key : String
  name : String
  content : String
deriving DecidableEq

/-- Contents of an in-memory multipart buffer: the form fields in the order
they were written, and an optional file part. -/
structure MultipartContent where
  fields : List (String × String)
  filePart : Option FilePart
deriving DecidableEq

/-- A byte-stream value, standing for the Go `io.Reader` values the builder
manipulates: an arbitrary caller-supplied reader, a string reader
(`strings.NewReader` wrapped in `io.NopCloser`), or an in-memory multipart
buffer (`bytes.Buffer`). -/
inductive BodyStream where
  | reader (id : Nat)
  | stringBody (s : String)
  | multipartBuffer (content : MultipartContent)
deriving DecidableEq

/-- The request builder (Go `Request`): method, URL, optional body stream,
and ordered header and query sequences.  `none` for `Body` is Go's nil
reader. -/
structure Request where
  Method : String
  URL : String
  Body : Option BodyStream
  Headers : List Param
  Query : List Param
deriving DecidableEq

/-- The body slot of a platform-native request: either the stream handed to
the platform constructor, or the platform's explicit empty body
(`http.NoBody`). -/
inductive NativeBody where
  | fromBuilder (b : Option BodyStream)
  | noBody
deriving DecidableEq

/-- A platform-native URL: everything outside the query string, plus the raw
query string (`URL.RawQuery`). -/
structure NativeURL where
  rest : String
  rawQuery : String
deriving DecidableEq

/-- A platform-native outbound request (`http.Request`), restricted to the
parts the builder touches.  `header` lists the added pairs in insertion
order (`Header.Add`). -/
structure NativeRequest where
  method : String
  url : NativeURL
  header : List Param
  body : NativeBody
deriving DecidableEq

/-- A platform-native response (`http.Response`), restricted to the parts
the builder reads: status code and body stream. -/
structure NativeResponse where
  statusCode : Int
  body : BodyStream
deriving DecidableEq

/-- The normalized response (Go `Response`).  `Headers` is included in the
struct but `Send` leaves it at its zero value. -/
structure Response where
  StatusCode : Int
  Duration : Int
  Body : BodyStream
  Headers : List Param
deriving DecidableEq

/-- The platform capabilities consumed during materialization:
`http.NewRequest` (which may fail on a malformed method or URL),
`URL.Query()` parsing of the raw query string, and `url.Values.Encode`. -/
structure Platform where
  newRequest : String → String → Option BodyStream → Option NativeRequest
  parseQuery : String → List Param
  encodeQuery : List Param → String

/-- Creates a new request (Go `NewRequest`): method and URL set, all other
fields at their zero values. -/
def NewRequest (method url : String) : Request :=
  { Method := method, URL := url, Body := none, Headers := [], Query := [] }

/-- Appends a header (Go `AddHeader`). -/
def Request.AddHeader (r : Request) (key value : String) : Request :=
  { r with Headers := r.Headers ++ [newParam key value] }

/-- Appends a query parameter (Go `AddQuery`). -/
def Request.AddQuery (r : Request) (key value : String) : Request :=
  { r with Query := r.Query ++ [newParam key value] }

/-- Sets the body to the given reader (Go `AddBody`). -/
def Request.AddBody (r : Request) (body : Option BodyStream) : Request :=
  { r with Body := body }

/-- Sets the body to a string reader (Go `AddBodyString`). -/
def Request.AddBodyString (r : Request) (body : String) : Request :=
  { r with Body := some (BodyStream.stringBody body) }

/-- Adds a JSON body (Go `AddBodyJSON`).  `marshal` is the outcome of
`json.Marshal` on the caller's value: the header is appended first, and on a
marshal error the method returns without touching the body. -/
def Request.AddBodyJSON (r : Request) (marshal : Except Unit String) : Request :=
  let r1 := r.AddHeader "Content-Type" "application/json"
  match marshal with
  | Except.error _ => r1
  | Except.ok b => r1.AddBodyString b

/-- Adds an XML body (Go `AddBodyXML`), same shape as the JSON variant with
`xml.Marshal`. -/
def Request.AddBodyXML (r : Request) (marshal : Except Unit String) : Request :=
  let r1 := r.AddHeader "Content-Type" "application/xml"
  match marshal with
  | Except.error _ => r1
  | Except.ok b => r1.AddBodyString b

/-- Adds a URL-encoded form body (Go `AddBodyForm`).  `body` is the map in
its iteration order and `encode` is the platform's `url.Values.Encode`. -/
def Request.AddBodyForm (r : Request) (encode : List (String × String) → String)
    (body : List (String × String)) : Request :=
  let r1 := r.AddHeader "Content-Type" "application/x-www-form-urlencoded"
  r1.AddBodyString (encode body)

/-- Adds a multipart form body (Go `AddBodyMultipartForm`): fields are
written into a fresh buffer and the buffer becomes the body. -/
def Request.AddBodyMultipartForm (r : Request) (body : List (String × String)) : Request :=
  let r1 := r.AddHeader "Content-Type" "multipart/form-data"
  r1.AddBody (some (BodyStream.multipartBuffer { fields := body, filePart := none }))

/-- Adds a multipart form body with one file part (Go
`AddBodyMultipartFormFile`).  `createFormFile` is the outcome of
`w.CreateFormFile`, `openFile` the outcome of `os.Open filePath`, and
`copyResult` the outcome of `io.Copy`: the bytes written into the part and
an optional error.  The source returns early on a `CreateFormFile` or
`os.Open` error; the `io.Copy` error is assigned to `err` but never
checked, so the buffer becomes the body regardless of it. -/
def Request.AddBodyMultipartFormFile (r : Request) (body : List (String × String))
    (fileKey fileName filePath : String)
    (createFormFile : Except Unit Unit) (openFile : Except Unit Unit)
    (copyResult : String × Option Unit) : Request :=
  let r1 := r.AddHeader "Content-Type" "multipart/form-data"
  match createFormFile with
  | Except.error _ => r1
  | Except.ok _ =>
    match openFile with
    | Except.error _ => r1
    | Except.ok _ =>
      r1.AddBody (some (BodyStream.multipartBuffer
        { fields := body
          filePart := some { key := fileKey, name := fileName, content := copyResult.1 } }))

/-- The loop body of Go `GetHeader`, with the receiver state threaded
explicitly: the loop only reads the list, returning the first matching value
or the empty string. -/
def getHeaderLoop : Request → List Param → String → Request × String
  | r, [], _ => (r, "")
  | r, p :: rest, key => if p.Key == key then (r, p.Value) else getHeaderLoop r rest key

/-- Go `GetHeader` as a state transformer: resulting receiver state and
returned string. -/
def Request.GetHeaderSt (r : Request) (key : String) : Request × String :=
  getHeaderLoop r r.Headers key

/-- The value returned by Go `GetHeader`. -/
def Request.GetHeader (r : Request) (key : String) : String :=
  (r.GetHeaderSt key).2

/-- The loop body of Go `GetQuery`, with the receiver state threaded
explicitly. -/
def getQueryLoop : Request → List Param → String → Request × String
  | r, [], _ => (r, "")
  | r, p :: rest, key => if p.Key == key then (r, p.Value) else getQueryLoop r rest key

/-- Go `GetQuery` as a state transformer. -/
def Request.GetQuerySt (r : Request) (key : String) : Request × String :=
  getQueryLoop r r.Query key

/-- The value returned by Go `GetQuery`. -/
def Request.GetQuery (r : Request) (key : String) : String :=
  (r.GetQuerySt key).2

/-- Materialization (Go `make`): builds the native request from method, URL
and body; on failure returns `none`.  Otherwise it adds every header in
order, re-encodes the query string from the parsed existing query plus every
added query parameter, and finally overwrites the native body with the
explicit empty body (`req.Body = http.NoBody`). -/
def Request.make (r : Request) (plat : Platform) : Option NativeRequest :=
  match plat.newRequest r.Method r.URL r.Body with
  | none => none
  | some req =>
    let req1 : NativeRequest := { req with header := req.header ++ r.Headers }
    let q : List Param := plat.parseQuery req1.url.rawQuery ++ r.Query
    let req2 : NativeRequest := { req1 with url := { req1.url with rawQuery := plat.encodeQuery q } }
    some { req2 with body := NativeBody.noBody }

/-- Execution (Go `Send`): materializes the request, returns `(none, none)`
when materialization fails, delegates to the platform client (`clientDo`),
propagates a transport error as `(none, some e)`, and on success wraps
status code, body and elapsed time into a `Response` whose `Headers` stays
at its zero value.  `startTime` and `endTime` are the two clock readings. -/
def Request.Send (r : Request) (plat : Platform)
    (clientDo : NativeRequest → Except String NativeResponse)
    (startTime endTime : Int) : Option Response × Option String :=
  match r.make plat with
  | none => (none, none)
  | some req =>
    match clientDo req with
    | Except.error e => (none, some e)
    | Except.ok resp =>
      (some { StatusCode := resp.statusCode, Duration := endTime - startTime,
              Body := resp.body, Headers := [] }, none)

/-- Spec-side description of lookup, written from the specification's words:
the value of the first `Param` in the sequence whose key matches, and the
empty string when no such `Param` exists. -/
def specFirstMatchValue (ps : List Param) (key : String) : String :=
  match ps.find? (fun p => p.Key == key) with
  | some p => p.Value
  | none => ""

/-- A platform whose request constructor always succeeds, parses no query
from the raw string and encodes the empty query string; used to instantiate
theorems at concrete inputs. -/
def platOK : Platform :=
  { newRequest := fun m u b =>
      some { method := m, url := { rest := u, rawQuery := "" }, header := [],
             body := NativeBody.fromBuilder b }
    parseQuery := fun _ => []
    encodeQuery := fun _ => "" }

/-- A platform whose request constructor always fails (malformed method or
URL). -/
def platFail : Platform :=
  { newRequest := fun _ _ _ => none
    parseQuery := fun _ => []
    encodeQuery := fun _ => "" }

/-- A platform client that answers every request with status 200 and an
opaque body stream. -/
def clientStub : NativeRequest → Except String NativeResponse :=
  fun _ => Except.ok { statusCode := 200, body := BodyStream.reader 0 }

/-- The native request `make` produces from a plain GET under `platOK`. -/
def reqMade : NativeRequest :=
  { method := "GET", url := { rest := "http://example.com", rawQuery := "" },
    header := [], body := NativeBody.noBody }

/-- The native response `clientStub` produces. -/
def respStub : NativeResponse :=
  { statusCode := 200, body := BodyStream.reader 0 }

/-- A request that already carries a header with key `a` before any call. -/
def reqShadow : Request :=
  { Method := "GET", URL := "http://example.com", Body := none,
    Headers := [newParam "a" "1"], Query := [] }

/-- The `GetHeader` loop never changes the receiver state. -/
theorem getHeaderLoop_fst (r : Request) (l : List Param) (k : String) :
    (getHeaderLoop r l k).1 = r := by
  induction l with
  | nil => rfl
  | cons p rest ih =>
    simp only [getHeaderLoop]
    split
    · rfl
    · exact ih

/-- The `GetQuery` loop never changes the receiver state. -/
theorem getQueryLoop_fst (r : Request) (l : List Param) (k : String) :
    (getQueryLoop r l k).1 = r := by
  induction l with
  | nil => rfl
  | cons p rest ih =>
    simp only [getQueryLoop]
    split
    · rfl
    · exact ih

/-- The `GetHeader` loop returns the first matching value. -/
theorem getHeaderLoop_snd (r : Request) (l : List Param) (k : String) :
    (getHeaderLoop r l k).2 = specFirstMatchValue l k := by
  induction l with
  | nil => rfl
  | cons p rest ih =>
    cases hpk : (p.Key == k) with
    | true => simp [getHeaderLoop, specFirstMatchValue, List.find?, hpk]
    | false => simp [getHeaderLoop, specFirstMatchValue, List.find?, hpk, ih]

/-- The `GetQuery` loop returns the first matching value. -/
theorem getQueryLoop_snd (r : Request) (l : List Param) (k : String) :
    (getQueryLoop r l k).2 = specFirstMatchValue l k := by
  induction l with
  | nil => rfl
  | cons p rest ih =>
    cases hpk : (p.Key == k) with
    | true => simp [getQueryLoop, specFirstMatchValue, List.find?, hpk]
    | false => simp [getQueryLoop, specFirstMatchValue, List.find?, hpk, ih]

/-- Materialization in closed form. -/
theorem make_eq (r : Request) (plat : Platform) :
    r.make plat = (plat.newRequest r.Method r.URL r.Body).map (fun req =>
      { method := req.method
        url := { rest := req.url.rest
                 rawQuery := plat.encodeQuery (plat.parseQuery req.url.rawQuery ++ r.Query) }
        header := req.header ++ r.Headers
        body := NativeBody.noBody }) := by
  unfold Request.make
  cases plat.newRequest r.Method r.URL r.Body <;> rfl

/-- C1: whenever `make` succeeds, the materialized native request's body is
the explicit empty body, regardless of the builder's body — so any body set
via the `AddBody` family is dropped from the materialized request. -/
theorem C1_make_drops_body (plat : Platform) (r : Request) (req : NativeRequest)
    (h : r.make plat = some req) : req.body = NativeBody.noBody := by
  rw [make_eq] at h
  cases hn : plat.newRequest r.Method r.URL r.Body with
  | none => rw [hn] at h; cases h
  | some req0 =>
    rw [hn] at h
    cases h
    rfl

/-- C1 at a concrete input: a GET request carrying a string body
materializes (under `platOK`) to `reqMade`, whose body is the empty body. -/
theorem C1_make_drops_body_witness : reqMade.body = NativeBody.noBody :=
  C1_make_drops_body platOK ((NewRequest "GET" "http://example.com").AddBodyString "hello")
    reqMade rfl

/-- C2: when materialization fails, `Send` returns a nil response together
with a nil error — no error value reaches the caller. -/
theorem C2_send_silent_on_make_failure (plat : Platform)
    (clientDo : NativeRequest → Except String NativeResponse)
    (s e : Int) (r : Request) (h : r.make plat = none) :
    r.Send plat clientDo s e = (none, none) := by
  unfold Request.Send
  rw [h]

/-- C2 at a concrete input: under the always-failing platform, `Send`
returns neither a response nor an error. -/
theorem C2_send_silent_on_make_failure_witness :
    (NewRequest "GET" "u").Send platFail clientStub 0 5 = (none, none) :=
  C2_send_silent_on_make_failure platFail clientStub 0 5 (NewRequest "GET" "u") rfl

/-- C3: evaluation of `AddBodyMultipartFormFile` at a read failure: the
part creation and the file open succeed, `io.Copy` stops with an error
after writing `"partial"`, and the body IS set to the buffer — the copy
error is assigned but never checked, so the call does not abort as the
specification says it should. -/
theorem C3_read_failure_still_sets_body :
    ((NewRequest "GET" "http://example.com").AddBodyMultipartFormFile [("a", "b")]
        "file" "name.txt" "/tmp/name.txt" (Except.ok ()) (Except.ok ()) ("partial", some ())).Body
      = some (BodyStream.multipartBuffer
          { fields := [("a", "b")]
            filePart := some { key := "file", name := "name.txt", content := "partial" } }) := rfl

/-- C4: `AddBodyJSON` appends the `Content-Type: application/json` header
regardless of the marshal outcome, and the body afterwards is exactly: the
previous body when marshalling failed (so a body never set stays unset, and
no error is surfaced — the method returns only the request), or the
marshalled string otherwise. -/
theorem C4_addBodyJSON_characterization (r : Request) (marshal : Except Unit String) :
    (r.AddBodyJSON marshal).Headers = r.Headers ++ [newParam "Content-Type" "application/json"] ∧
    (r.AddBodyJSON marshal).Body =
      (match marshal with
       | Except.error _ => r.Body
       | Except.ok b => some (BodyStream.stringBody b)) := by
  cases marshal <;> exact ⟨rfl, rfl⟩

/-- C5 as stated is false: on a request already holding header `a = 1`,
`AddHeader "a" "2"` followed by `GetHeader "a"` returns `"1"`, not the value
just added, because lookup returns the first match in insertion order. -/
theorem C5_counterexample :
    ¬ ((reqShadow.AddHeader "a" "2").GetHeader "a" = "2") := by decide

/-- C5 (amended): when the request holds no header with the given key,
`AddHeader key value` followed by `GetHeader key` returns `value`; and
`GetHeader` on such a request returns the empty string. -/
theorem C5_add_get_roundtrip (r : Request) (k v : String)
    (h : r.Headers.find? (fun p => p.Key == k) = none) :
    (r.AddHeader k v).GetHeader k = v ∧ r.GetHeader k = "" := by
  have hget : ∀ r' : Request, r'.GetHeader k = specFirstMatchValue r'.Headers k := by
    intro r'
    exact getHeaderLoop_snd r' r'.Headers k
  constructor
  · rw [hget]
    show specFirstMatchValue (r.Headers ++ [newParam k v]) k = v
    unfold specFirstMatchValue
    rw [List.find?_append, h]
    simp [newParam]
  · rw [hget]
    unfold specFirstMatchValue
    rw [h]

/-- C5 (amended) at a concrete input: on a fresh request, adding header
`k = v` and reading it back yields `v`, and reading before adding yields
the empty string. -/
theorem C5_add_get_roundtrip_witness :
    ((NewRequest "GET" "u").AddHeader "k" "v").GetHeader "k" = "v" ∧
    (NewRequest "GET" "u").GetHeader "k" = "" :=
  C5_add_get_roundtrip (NewRequest "GET" "u") "k" "v" rfl

/-- C6: `GetHeader` returns the value of the first header in insertion
order whose key matches, and the empty string when none does — so a key
present with empty value is indistinguishable from an absent key — and
`GetQuery` behaves the same way over the query sequence. -/
theorem C6_first_match_lookup (r : Request) (k : String) :
    r.GetHeader k = specFirstMatchValue r.Headers k ∧
    r.GetQuery k = specFirstMatchValue r.Query k :=
  ⟨getHeaderLoop_snd r r.Headers k, getQueryLoop_snd r r.Query k⟩

/-- C7: on a successful round trip, `Send` returns a response carrying the
native status code, the native body stream, duration equal to the end
reading minus the start reading, and an unpopulated `Headers` field,
together with a nil error. -/
theorem C7_send_success (plat : Platform)
    (clientDo : NativeRequest → Except String NativeResponse)
    (s e : Int) (r : Request) (req : NativeRequest) (resp : NativeResponse)
    (hm : r.make plat = some req) (hc : clientDo req = Except.ok resp) :
    r.Send plat clientDo s e =
      (some { StatusCode := resp.statusCode, Duration := e - s,
              Body := resp.body, Headers := [] }, none) := by
  unfold Request.Send
  rw [hm]
  dsimp only
  rw [hc]

/-- C7 at a concrete input: a plain GET under `platOK` and `clientStub`,
with clock readings 2 and 7, yields status 200, the stub's body stream,
duration 5 and empty headers, with a nil error. -/
theorem C7_send_success_witness :
    (NewRequest "GET" "http://example.com").Send platOK clientStub 2 7 =
      (some { StatusCode := 200, Duration := 5,
              Body := BodyStream.reader 0, Headers := [] }, none) :=
  C7_send_success platOK clientStub 2 7 (NewRequest "GET" "http://example.com")
    reqMade respStub rfl rfl

/-- C8: `NewRequest` sets `Method` and `URL` from its arguments, and every
subsequent operation — the header, query and body setters as well as the
two lookups — leaves both fields unchanged. -/
theorem C8_method_url_invariant :
    (∀ m u, (NewRequest m u).Method = m ∧ (NewRequest m u).URL = u) ∧
    (∀ (r : Request) k v, (r.AddHeader k v).Method = r.Method ∧ (r.AddHeader k v).URL = r.URL) ∧
    (∀ (r : Request) k v, (r.AddQuery k v).Method = r.Method ∧ (r.AddQuery k v).URL = r.URL) ∧
    (∀ (r : Request) b, (r.AddBody b).Method = r.Method ∧ (r.AddBody b).URL = r.URL) ∧
    (∀ (r : Request) s, (r.AddBodyString s).Method = r.Method ∧ (r.AddBodyString s).URL = r.URL) ∧
    (∀ (r : Request) m, (r.AddBodyJSON m).Method = r.Method ∧ (r.AddBodyJSON m).URL = r.URL) ∧
    (∀ (r : Request) m, (r.AddBodyXML m).Method = r.Method ∧ (r.AddBodyXML m).URL = r.URL) ∧
    (∀ (r : Request) enc b,
      (r.AddBodyForm enc b).Method = r.Method ∧ (r.AddBodyForm enc b).URL = r.URL) ∧
    (∀ (r : Request) b,
      (r.AddBodyMultipartForm b).Method = r.Method ∧ (r.AddBodyMultipartForm b).URL = r.URL) ∧
    (∀ (r : Request) b fk fn fp c o cp,
      (r.AddBodyMultipartFormFile b fk fn fp c o cp).Method = r.Method ∧
      (r.AddBodyMultipartFormFile b fk fn fp c o cp).URL = r.URL) ∧
    (∀ (r : Request) k, (r.GetHeaderSt k).1.Method = r.Method ∧ (r.GetHeaderSt k).1.URL = r.URL) ∧
    (∀ (r : Request) k, (r.GetQuerySt k).1.Method = r.Method ∧ (r.GetQuerySt k).1.URL = r.URL) := by
  refine ⟨fun m u => ⟨rfl, rfl⟩, fun r k v => ⟨rfl, rfl⟩, fun r k v => ⟨rfl, rfl⟩,
    fun r b => ⟨rfl, rfl⟩, fun r s => ⟨rfl, rfl⟩,
    fun r m => ?_, fun r m => ?_,
    fun r enc b => ⟨rfl, rfl⟩, fun r b => ⟨rfl, rfl⟩,
    fun r b fk fn fp c o cp => ?_,
    fun r k => ?_, fun r k => ?_⟩
  · cases m <;> exact ⟨rfl, rfl⟩
  · cases m <;> exact ⟨rfl, rfl⟩
  · cases c <;> cases o <;> exact ⟨rfl, rfl⟩
  · rw [Request.GetHeaderSt, getHeaderLoop_fst]; exact ⟨rfl, rfl⟩
  · rw [Request.GetQuerySt, getQueryLoop_fst]; exact ⟨rfl, rfl⟩

/-- C9: `Send` never returns both a response and an error: at least one of
the two components is nil. -/
theorem C9_send_at_most_one (plat : Platform)
    (clientDo : NativeRequest → Except String NativeResponse)
    (s e : Int) (r : Request) :
    (r.Send plat clientDo s e).1 = none ∨ (r.Send plat clientDo s e).2 = none := by
  cases hm : r.make plat with
  | none => simp [Request.Send, hm]
  | some req =>
    cases hc : clientDo req with
    | error err => simp [Request.Send, hm, hc]
    | ok resp => simp [Request.Send, hm, hc]

/-- C10: the lookups are pure reads — after `GetHeader` or `GetQuery` the
receiver state is exactly the request it started from, so `Method`, `URL`,
`Body`, `Headers` and `Query` are all unchanged. -/
theorem C10_get_frame (r : Request) (k : String) :
    (r.GetHeaderSt k).1 = r ∧ (r.GetQuerySt k).1 = r :=
  ⟨getHeaderLoop_fst r r.Headers k, getQueryLoop_fst r r.Query k⟩

end HttpBuilder
